import Mathlib

set_option maxHeartbeats 1000000

/-!
Verification of the mdfmvgmrip VGM instrument ripper.

Shallow embedding of the sources:
  * `ym2612.py`   — the FM register state machine (channel/operator model,
    key on/off edge detection, register decoding);
  * `vgm.py`      — the VGM command-stream decoder (`VGM.from_data`);
  * `mdfmvgmrip.py` — the instrument extractor (`dump_fm_instruments` core loop).

Python machine integers are modelled as `Nat` (all register/value arithmetic in
the sources is on non-negative byte-derived ints); the few `-1` sentinels
(`lfo_freq`, the default fields of `WriteCommand`) are modelled as `Int`.
Python list indexing is modelled as a bounds-checked access that returns an
`indexError` on an out-of-range index, exactly as CPython raises `IndexError`.
-/

/-! ## ym2612.py — data model -/

/-- `ym2612.py` lines 9-23: key-on/off channel lookup.  The `LOOKUP` dict maps
the six channel bit patterns, plus `0b111 → 6`; a missing key (`KeyError`)
returns the literal `0b111`, i.e. `7`. -/
def get_channel_number_from_keyonoff_bits (chn : Nat) : Nat :=
  match chn with
  | 0b000 => 0
  | 0b001 => 1
  | 0b010 => 2
  | 0b100 => 3
  | 0b101 => 4
  | 0b110 => 5
  | 0b111 => 6
  | _ => 0b111

/-- `ym2612.py` lines 47-73: channel/operator decode for operator registers.
The `while reg >= 0x10: reg -= 0x10` loop reduces `reg` modulo `0x10`.
The Python sentinel `(-1, -1)` is modelled as `none`. -/
def get_channel_and_operator_number_from_reg (port reg : Nat) :
    Option (Nat × Nat) :=
  let r := reg % 0x10
  let looked : Option (Nat × Nat) :=
    match r with
    | 0x00 => some (0, 0)
    | 0x01 => some (1, 0)
    | 0x02 => some (2, 0)
    | 0x04 => some (0, 1)
    | 0x05 => some (1, 1)
    | 0x06 => some (2, 1)
    | 0x08 => some (0, 2)
    | 0x09 => some (1, 2)
    | 0x0A => some (2, 2)
    | 0x0C => some (0, 3)
    | 0x0D => some (1, 3)
    | 0x0E => some (2, 3)
    | _ => none
  match looked with
  | some o => some (o.1 + 3 * port, o.2)
  | none => none

/-- `ym2612.py` lines 86-102: per-operator FM parameters (`__init__` zeroes). -/
structure YM2612Operator where
  detune : Nat
  multiplier : Nat
  level : Nat
  key_scaling : Nat
  amplitude_mod : Bool
  ssg_eg : Nat
  ch3_spmode_freq : Nat
  ch3_spmode_octave : Nat
  attack : Nat
  delay : Nat
  sustain : Nat
  sust_lvl : Nat
  release : Nat
deriving DecidableEq, Repr

def YM2612Operator.init : YM2612Operator :=
  ⟨0, 0, 0, 0, false, 0, 0, 0, 0, 0, 0, 0, 0⟩

/-- `ym2612.py` lines 104-116: the 11-field operator comparison. -/
def YM2612Operator.compare (a b : YM2612Operator) : Bool :=
  a.detune == b.detune &&
  a.multiplier == b.multiplier &&
  a.level == b.level &&
  a.key_scaling == b.key_scaling &&
  a.amplitude_mod == b.amplitude_mod &&
  a.ssg_eg == b.ssg_eg &&
  a.attack == b.attack &&
  a.delay == b.delay &&
  a.sustain == b.sustain &&
  a.sust_lvl == b.sust_lvl &&
  a.release == b.release

/-- `ym2612.py` lines 140-151: a channel.  The Python `operators` list always
holds exactly 4 operators, so it is modelled as `Fin 4 → YM2612Operator`. -/
structure YM2612Channel where
  operators : Fin 4 → YM2612Operator
  ch3_special_mode : Bool
  frequency : Nat
  octave : Nat
  algorithm : Nat
  op1_feedback : Nat
  pan : Nat
  ams : Nat
  fms : Nat
  key_on : Bool

def YM2612Channel.init : YM2612Channel :=
  ⟨fun _ => YM2612Operator.init, false, 0, 0, 0, 0, 0, 0, 0, false⟩

/-- A usage record appended to an instrument's `metadata["all_uses"]` list
(`mdfmvgmrip.py` lines 74-101); `key_on_ops` is the optional dict of the four
decoded key-on operator booleans. -/
structure UseRecord where
  at_command : Nat
  at_sample : Nat
  key_on_ops : Option (Bool × Bool × Bool × Bool)
deriving DecidableEq, Repr

/-- `ym2612.py` lines 154-163: an instrument snapshot.  `metadata` is the
`"all_uses"` list kept in the Python metadata dict. -/
structure YM2612Instrument where
  lfo_freq : Int
  operators : Fin 4 → YM2612Operator
  algorithm : Nat
  op1_feedback : Nat
  pan : Nat
  ams : Nat
  fms : Nat
  metadata : List UseRecord

/-- `ym2612.py` lines 165-180: instrument equality; the loop over
`range(4)` compares the operator lists pairwise. -/
def YM2612Instrument.compare (a b : YM2612Instrument) : Bool :=
  let ops_are_equal :=
    (List.finRange 4).all fun i => YM2612Operator.compare (a.operators i) (b.operators i)
  a.algorithm == b.algorithm &&
  a.lfo_freq == b.lfo_freq &&
  a.op1_feedback == b.op1_feedback &&
  a.pan == b.pan &&
  a.ams == b.ams &&
  a.fms == b.fms &&
  ops_are_equal

/-- `ym2612.py` lines 182-194: snapshot a channel into an instrument
(the Python deep copy is value copying here). -/
def YM2612Instrument.from_channel (channel : YM2612Channel) (lfo : Int) :
    YM2612Instrument :=
  { lfo_freq := lfo
    operators := channel.operators
    algorithm := channel.algorithm
    op1_feedback := channel.op1_feedback
    pan := channel.pan
    ams := channel.ams
    fms := channel.fms
    metadata := [] }

/-- `ym2612.py` lines 214-219: the chip state.  The Python `channels` list
always holds exactly 6 channels, so it is modelled as `Fin 6 → YM2612Channel`.
`lfo_freq` uses the `-1` disabled sentinel. -/
structure YM2612 where
  channels : Fin 6 → YM2612Channel
  lfo_freq : Int
  dac_enable : Bool
  dac : Nat

def YM2612.init : YM2612 :=
  ⟨fun _ => YM2612Channel.init, -1, false, 0⟩

/-- Errors of the state machine: `indexError` models a CPython `IndexError`
from an out-of-range list index; the others model the `YM2612Error` raises. -/
inductive YM2612Err where
  | indexError
  | unableChannelFromReg (reg : Nat)
  | invalidFreqReg (reg val : Nat)
  | invalidKeyChannel (ch : Nat)
deriving DecidableEq, Repr

/-- The write command as consumed by `handle_write_command`
(the `cmd["port"] / cmd["reg"] / cmd["val"]` fields). -/
structure YMWrite where
  port : Nat
  reg : Nat
  val : Nat
deriving DecidableEq, Repr

/-- Modelled from the spec: class `YM2612State` is imported by
`mdfmvgmrip.py` from `ym2612` but absent from the sources; per the spec the
state-machine step returns a 6-element per-channel edge vector plus an
`advanceCount` — exactly the `{"advance": ..., "notes": ...}` dict that
`handle_write_command` builds. -/
structure YM2612State where
  advance : Nat
  notes : List String
deriving DecidableEq, Repr

/-- Python `self.channels[n]` read: bounds-checked list indexing. -/
def YM2612.chGet (st : YM2612) (n : Nat) : Except YM2612Err YM2612Channel :=
  if h : n < 6 then .ok (st.channels ⟨n, h⟩) else .error .indexError

/-- Python `self.channels[n].field = v` statement: the read of
`self.channels[n]` is bounds checked, then the field store is in place. -/
def YM2612.chMod (st : YM2612) (n : Nat) (f : YM2612Channel → YM2612Channel) :
    Except YM2612Err YM2612 :=
  if h : n < 6 then
    .ok { st with channels := Function.update st.channels ⟨n, h⟩ (f (st.channels ⟨n, h⟩)) }
  else .error .indexError

/-- Python `self.channels[n].operators[o].field = v` statement. -/
def YM2612.opMod (st : YM2612) (n o : Nat) (f : YM2612Operator → YM2612Operator) :
    Except YM2612Err YM2612 :=
  if h : n < 6 then
    if ho : o < 4 then
      let c := st.channels ⟨n, h⟩
      let c2 := { c with operators := Function.update c.operators ⟨o, ho⟩ (f (c.operators ⟨o, ho⟩)) }
      .ok { st with channels := Function.update st.channels ⟨n, h⟩ c2 }
    else .error .indexError
  else .error .indexError

/-- `ym2612.py` lines 244-388: every register branch of
`handle_write_command` other than the 0x28 key on/off branch.  None of these
branches touches the `notes` edge vector, so they are factored here as the
chip-state mutation alone; `handle_write_command` pairs the result with the
untouched `{advance, notes}` return value, exactly as the source's common
`return` does.  `DEBUG` is `False` (no `--debug`), so all debug prints/raises
and the `warnings.warn` calls are no-ops and are omitted. -/
def YM2612.handle_register_write (st : YM2612) (cmd : YMWrite) :
    Except YM2612Err YM2612 :=
  if cmd.reg == 0x22 then -- LFO control
    if cmd.val &&& 0x08 == 0x08 then .ok { st with lfo_freq := ((cmd.val &&& 0x07 : Nat) : Int) }
    else .ok { st with lfo_freq := -1 }
  else if cmd.reg == 0x27 then -- Timer Control (+ch3)
    st.chMod 2 fun c => { c with ch3_special_mode := cmd.val &&& 0xC0 == 0x40 }
  else if 0x24 ≤ cmd.reg && cmd.reg ≤ 0x26 then -- Timer A/B: not modelled
    .ok st
  else if cmd.reg == 0x2B then -- DAC Enable
    .ok { st with dac_enable := cmd.val &&& 0x80 == 0x80 }
  else if cmd.reg == 0x2A then -- DAC Value (warning only)
    .ok st
  else if 0x30 ≤ cmd.reg && cmd.reg ≤ 0x3F then -- OP: Detune and multiplier
    match get_channel_and_operator_number_from_reg cmd.port cmd.reg with
    | none => .ok st
    | some (channel, operator) =>
      st.opMod channel operator fun op =>
        { op with detune := (cmd.val &&& 0b01110000) >>> 4, multiplier := cmd.val &&& 0xF }
  else if 0x40 ≤ cmd.reg && cmd.reg ≤ 0x4F then -- OP: Total level
    match get_channel_and_operator_number_from_reg cmd.port cmd.reg with
    | none => .ok st
    | some (channel, operator) =>
      st.opMod channel operator fun op => { op with level := cmd.val &&& 0x7F }
  else if 0x50 ≤ cmd.reg && cmd.reg ≤ 0x5F then -- OP: Rate scaling and attack rate
    match get_channel_and_operator_number_from_reg cmd.port cmd.reg with
    | none => .ok st
    | some (channel, operator) =>
      st.opMod channel operator fun op =>
        { op with key_scaling := (cmd.val &&& 0xC0) >>> 6, attack := cmd.val &&& 0x1F }
  else if 0x60 ≤ cmd.reg && cmd.reg ≤ 0x6F then -- OP: Decay 1 and AM
    match get_channel_and_operator_number_from_reg cmd.port cmd.reg with
    | none => .ok st
    | some (channel, operator) =>
      st.opMod channel operator fun op =>
        { op with amplitude_mod := cmd.val &&& 0x80 == 0x80, delay := cmd.val &&& 0x1F }
  else if 0x70 ≤ cmd.reg && cmd.reg ≤ 0x7F then -- OP: Sustain (fatal on decode failure)
    match get_channel_and_operator_number_from_reg cmd.port cmd.reg with
    | none => .error (.unableChannelFromReg cmd.reg)
    | some (channel, operator) =>
      st.opMod channel operator fun op => { op with sustain := cmd.val &&& 0x1F }
  else if 0x80 ≤ cmd.reg && cmd.reg ≤ 0x8F then -- OP: Sustain level and release
    match get_channel_and_operator_number_from_reg cmd.port cmd.reg with
    | none => .ok st
    | some (channel, operator) =>
      st.opMod channel operator fun op =>
        { op with sust_lvl := ((cmd.val &&& 0xF0) >>> 4) ||| 0x10,
                  release := (cmd.val &&& 0xF) ||| 0x10 }
  else if 0x90 ≤ cmd.reg && cmd.reg ≤ 0x9F then -- OP: SSG-EG
    match get_channel_and_operator_number_from_reg cmd.port cmd.reg with
    | none => .ok st
    | some (channel, operator) =>
      st.opMod channel operator fun op => { op with ssg_eg := cmd.val &&& 0xF }
  else if 0xA0 ≤ cmd.reg && cmd.reg ≤ 0xAF then -- Ch: Frequency
    if 0xA0 ≤ cmd.reg && cmd.reg ≤ 0xA2 then do -- frequency LSB
      let channel := cmd.reg - 0xA0 + 3 * cmd.port
      let ch2 ← st.chGet 2
      if (channel == 2 || channel == 5) && ch2.ch3_special_mode then
        st.opMod 2 0 fun op =>
          { op with ch3_spmode_freq := (op.ch3_spmode_freq &&& 0xFF00) ||| cmd.val }
      else
        st.chMod channel fun c =>
          { c with frequency := (c.frequency &&& 0xFF00) ||| cmd.val }
    else if 0xA4 ≤ cmd.reg && cmd.reg ≤ 0xA6 then do -- frequency MSB and octave
      let channel := cmd.reg - 0xA4 + 3 * cmd.port
      let ch2 ← st.chGet 2
      if (channel == 2 || channel == 5) && ch2.ch3_special_mode then do
        let st ← st.opMod 2 0 fun op =>
          { op with ch3_spmode_freq := (op.ch3_spmode_freq &&& 0xFF) ||| (cmd.val &&& 0x07) }
        st.opMod 2 0 fun op => { op with ch3_spmode_octave := (cmd.val >>> 3) &&& 0x07 }
      else do
        -- source line 350: the masked MSB value is OR'd in without a << 8 shift
        let st ← st.chMod channel fun c =>
          { c with frequency := (c.frequency &&& 0xFF) ||| (cmd.val &&& 0x07) }
        st.chMod channel fun c => { c with octave := (cmd.val >>> 3) &&& 0x07 }
    else if 0xA8 ≤ cmd.reg && cmd.reg ≤ 0xAA then do -- Ch3(S) OP2-OP4 frequency LSB
      let ch2 ← st.chGet 2
      if ch2.ch3_special_mode then
        let operator := cmd.reg - 0xA7
        st.opMod 2 operator fun op =>
          { op with ch3_spmode_freq := (op.ch3_spmode_freq &&& 0xFF00) ||| cmd.val }
      else .ok st
    else if 0xAC ≤ cmd.reg && cmd.reg ≤ 0xAE then do -- Ch3(S) OP2-OP4 frequency MSB
      let ch2 ← st.chGet 2
      if ch2.ch3_special_mode then do
        let operator := cmd.reg - 0xA7
        -- source line 366 reads operators[0]'s spmode frequency here
        let op0 := ch2.operators 0
        let st ← st.opMod 2 operator fun op =>
          { op with ch3_spmode_freq := (op0.ch3_spmode_freq &&& 0xFF) ||| (cmd.val &&& 0x07) }
        st.opMod 2 operator fun op => { op with ch3_spmode_octave := (cmd.val >>> 3) &&& 0x07 }
      else .ok st
    else .error (.invalidFreqReg cmd.reg cmd.val)
  else if 0xB0 ≤ cmd.reg && cmd.reg ≤ 0xB3 then do -- Ch: Feedback and algorithm
    let channel := cmd.reg - 0xB0 + 3 * cmd.port
    let st ← st.chMod channel fun c => { c with algorithm := cmd.val &&& 0x07 }
    st.chMod channel fun c => { c with op1_feedback := (cmd.val >>> 3) &&& 0x07 }
  else if 0xB4 ≤ cmd.reg && cmd.reg ≤ 0xB6 then do -- Ch: Stereo and LFO sensitivity
    let channel := cmd.reg - 0xB4 + 3 * cmd.port
    let st ← st.chMod channel fun c => { c with pan := (cmd.val >>> 6) &&& 0x03 }
    let st ← st.chMod channel fun c => { c with ams := (cmd.val >>> 3) &&& 0x07 }
    -- source line 383: fms is masked with 0x02, keeping only bit 1
    st.chMod channel fun c => { c with fms := cmd.val &&& 0x02 }
  else -- unknown register: ignored when not in debug mode
    .ok st

/-- `ym2612.py` lines 221-391: the register state machine step.  The 0x28
key on/off branch is the only one that writes to the `notes` edge vector;
every other register goes through `handle_register_write` and returns the
all-"n" vector. -/
def YM2612.handle_write_command (st : YM2612) (cmd : YMWrite) :
    Except YM2612Err (YM2612 × YM2612State) :=
  let advance : Nat := 1
  let notes : List String := List.replicate 6 "n"
  if cmd.reg == 0x28 then -- Key on/off
    let channel := get_channel_number_from_keyonoff_bits (cmd.val &&& 0x07)
    let operators := (cmd.val &&& 0xF0) >>> 4
    let key_on : Bool := operators != 0
    if channel == 6 then
      .ok (st, ⟨advance, notes⟩)
    else do
      let ch ← st.chGet channel
      let prev_key_on := ch.key_on
      let notes :=
        if prev_key_on != key_on then
          notes.set channel (if key_on then "d" else "u")
        else notes
      let st ← st.chMod channel fun c => { c with key_on := key_on }
      if channel > 6 then .error (.invalidKeyChannel channel)
      else .ok (st, ⟨advance, notes⟩)
  else
    (st.handle_register_write cmd).map fun st2 => (st2, ⟨advance, notes⟩)

/-! ## vgm.py — command decoder -/

/-- `vgm.py` lines 9-17. -/
inductive Chip where
  | unknown
  | ym2612
  | sega_psg
deriving DecidableEq, Repr

/-- `vgm.py` lines 29-71: the command classes as a tagged variant.
`write` keeps the `WriteCommand` fields (with the `-1` defaults of the
constructor representable, hence `Int` fields). -/
inductive VGMCommand where
  | write (chip : Chip) (port : Int) (register : Int) (value : Int)
  | wait (wait_time : Nat)
  | databankWrite (wait_time : Nat)
  | databankSeek (seek_address : Nat)
deriving DecidableEq, Repr

/-- `vgm.py` lines 62-65.  The Python field `end` is a Lean keyword and is
named `stop` here; the range is the half-open `[start, stop)`. -/
structure DataBlockSection where
  start : Nat
  stop : Nat
deriving DecidableEq, Repr

/-- Decode failures.  `outOfData` models both a CPython `IndexError` from
`data.read(1)[0]` on an exhausted stream and a `struct.error` from a short
`struct.unpack` read; the rest model the `VGMError` raises, carrying the
tracked byte counter `i`. -/
inductive VGMErr where
  | invalidIdent
  | outOfData
  | pcmRamWrite (i : Nat)
  | dacStreamControl (i : Nat)
  | unknownCommand (i cmd : Nat)
deriving DecidableEq, Repr

/-- `vgm.py` lines 74-82: the decoded VGM.  `dblock_data` is the Python
`dict[int, bytes]` as an insertion-ordered association list; the two clock
rates stand for the `_clock_rates` dict entries. -/
structure VGM where
  version : Nat
  commands : List VGMCommand
  dblock_data : List (Nat × List Nat)
  dblock_sections : List DataBlockSection
  clock_ym2612 : Nat
  clock_sega_psg : Nat
deriving DecidableEq, Repr

/-- `data.read(1)[0]` at an absolute position: `IndexError` when exhausted. -/
def byteAt (file : List Nat) (i : Nat) : Except VGMErr Nat :=
  match file.get? i with
  | some b => .ok b
  | none => .error .outOfData

/-- `struct.unpack("<H", data.read(2))[0]`. -/
def u16le (file : List Nat) (i : Nat) : Except VGMErr Nat := do
  let b0 ← byteAt file i
  let b1 ← byteAt file (i + 1)
  .ok (b0 + 0x100 * b1)

/-- `struct.unpack("<I", data.read(4))[0]`. -/
def u32le (file : List Nat) (i : Nat) : Except VGMErr Nat := do
  let b0 ← byteAt file i
  let b1 ← byteAt file (i + 1)
  let b2 ← byteAt file (i + 2)
  let b3 ← byteAt file (i + 3)
  .ok (b0 + 0x100 * b1 + 0x10000 * b2 + 0x1000000 * b3)

/-- Python `type in dict.keys()`. -/
def dictHasKey (d : List (Nat × List Nat)) (k : Nat) : Bool :=
  d.any fun p => p.1 == k

/-- `vgm.py` lines 140-143: `dict[k] += v` when present, `dict[k] = v`
otherwise (new keys go to the end: insertion order). -/
def dictAppend (d : List (Nat × List Nat)) (k : Nat) (v : List Nat) :
    List (Nat × List Nat) :=
  if dictHasKey d k then d.map fun p => if p.1 == k then (p.1, p.2 ++ v) else p
  else d ++ [(k, v)]

/-- Python `len(dict)`: the number of keys. -/
def dictLen (d : List (Nat × List Nat)) : Nat := d.length

/-- Python `dict[k]` lookup as an `Option`. -/
def dictGet (d : List (Nat × List Nat)) (k : Nat) : Option (List Nat) :=
  (d.find? fun p => p.1 == k).map Prod.snd

/-- `vgm.py` lines 197-208 `parse_data_block`: called with the stream just
after the 0x67 opcode byte (position `p`).  Skips the compatibility byte,
reads the type byte and the u32 size, then `data.read(size)` — which, like
CPython, silently returns fewer bytes on a truncated file.  Returns
`(type, payload, new stream position)`. -/
def parse_data_block (file : List Nat) (p : Nat) :
    Except VGMErr (Nat × List Nat × Nat) := do
  let db_type ← byteAt file (p + 1)
  let db_size ← u32le file (p + 2)
  let db_data := (file.drop (p + 6)).take db_size
  .ok (db_type, db_data, p + 6 + db_data.length)

/-- State of the `vgm.py` scan loop (lines 126-193): the `BytesIO` cursor
`pos`, the separately tracked byte counter `i`, and the accumulating outputs. -/
structure ScanState where
  pos : Nat
  i : Nat
  commands : List VGMCommand
  dblock_data : List (Nat × List Nat)
  dblock_sections : List DataBlockSection
deriving DecidableEq, Repr

/-- `vgm.py` lines 126-193: the command scan loop.  Fuel-based recursion:
every iteration consumes at least one stream byte, so fuel
`file.length + 1` (as passed by `VGM.from_data`) never runs out before the
stream itself is exhausted; the fuel-0 fallback mirrors the exhausted-stream
`IndexError`.  Note the source does not advance `i` over the payload bytes
of opcodes 0x61 and 0xE0. -/
def scan_commands (file : List Nat) : Nat → ScanState → Except VGMErr ScanState
  | 0, _ => .error .outOfData
  | fuel + 1, s => do
    let i := s.i + 1
    let cmd ← byteAt file s.pos
    let p := s.pos + 1
    if cmd == 0x66 then -- end of VGM data stream
      .ok { s with pos := p, i := i }
    else if cmd == 0x67 then do -- data block
      let r ← parse_data_block file p
      let db_type := r.1
      let db_data := r.2.1
      let p2 := r.2.2
      let sections := s.dblock_sections ++
        [⟨dictLen s.dblock_data, dictLen s.dblock_data + db_data.length⟩]
      let ddata := dictAppend s.dblock_data db_type db_data
      scan_commands file fuel
        { pos := p2, i := i + 2 + 4 + db_data.length, commands := s.commands,
          dblock_data := ddata, dblock_sections := sections }
    else if cmd == 0x68 then -- pcm ram write (stub)
      .error (.pcmRamWrite i)
    else if 0x90 ≤ cmd && cmd ≤ 0x95 then -- dac stream control (stub)
      .error (.dacStreamControl i)
    else if 0x80 ≤ cmd && cmd ≤ 0x8F then -- YM2612 databank write
      scan_commands file fuel
        { s with pos := p, i := i, commands := s.commands ++ [.databankWrite (cmd - 0x80)] }
    else if cmd == 0x52 || cmd == 0x53 then do -- YM2612 write
      let register ← byteAt file p
      let value ← byteAt file (p + 1)
      scan_commands file fuel
        { s with pos := p + 2, i := i + 2,
                 commands := s.commands ++
                   [.write .ym2612 ((cmd - 0x52 : Nat) : Int) (register : Int) (value : Int)] }
    else if cmd == 0x4F then do -- PSG port 0x06 write
      let value ← byteAt file p
      scan_commands file fuel
        { s with pos := p + 1, i := i + 1,
                 commands := s.commands ++ [.write .sega_psg 0x06 (-1) (value : Int)] }
    else if cmd == 0x50 then do -- PSG write
      let value ← byteAt file p
      scan_commands file fuel
        { s with pos := p + 1, i := i + 1,
                 commands := s.commands ++ [.write .sega_psg (-1) (-1) (value : Int)] }
    else if (0x61 ≤ cmd && cmd ≤ 0x63) || (0x70 ≤ cmd && cmd ≤ 0x7F) then -- wait...
      if cmd == 0x61 then do
        let wait_time ← u16le file p
        -- the two payload bytes are consumed but `i` is not advanced
        scan_commands file fuel
          { s with pos := p + 2, i := i, commands := s.commands ++ [.wait wait_time] }
      else if cmd == 0x62 then
        scan_commands file fuel
          { s with pos := p, i := i, commands := s.commands ++ [.wait 735] }
      else if cmd == 0x63 then
        scan_commands file fuel
          { s with pos := p, i := i, commands := s.commands ++ [.wait 882] }
      else
        scan_commands file fuel
          { s with pos := p, i := i, commands := s.commands ++ [.wait (cmd - 0x70 + 1)] }
    else if cmd == 0xE0 then do -- seek in YM2612 databank
      let dbank_offset ← u32le file p
      -- the four payload bytes are consumed but `i` is not advanced
      scan_commands file fuel
        { s with pos := p + 4, i := i, commands := s.commands ++ [.databankSeek dbank_offset] }
    else -- unknown cmds
      .error (.unknownCommand i cmd)

/-- `vgm.py` lines 118-122: the relative data offset — `0x0C` unless
version ≥ 0x150, in which case the u32 at 0x34. -/
def vgm_data_offset (file : List Nat) (version : Nat) : Except VGMErr Nat :=
  if version ≥ 0x00000150 then u32le file 0x34 else .ok 0x0C

/-- `vgm.py` line 123: the absolute offset at which the command scan starts. -/
def vgm_command_start (file : List Nat) (version : Nat) : Except VGMErr Nat :=
  (vgm_data_offset file version).map fun off => 0x34 + off

/-- `vgm.py` lines 96-195 `VGM.from_data`: header parsing followed by the
command scan. -/
def VGM.from_data (file : List Nat) : Except VGMErr VGM := do
  if file.take 4 ≠ [0x56, 0x67, 0x6D, 0x20] then -- b"Vgm "
    .error .invalidIdent
  else do
    let version ← u32le file 0x08
    let clock0 ← u32le file 0x2C
    let clock_ym2612 ←
      if clock0 > 5000000 && version ≤ 0x00000101 then u32le file 0x30
      else .ok clock0
    let clock_sega_psg ← u32le file 0x28
    let start ← vgm_command_start file version
    let s ← scan_commands file (file.length + 1) ⟨start, start - 1, [], [], []⟩
    .ok { version := version, commands := s.commands, dblock_data := s.dblock_data,
          dblock_sections := s.dblock_sections, clock_ym2612 := clock_ym2612,
          clock_sega_psg := clock_sega_psg }

/-! ## mdfmvgmrip.py — instrument extractor -/

/-- `mdfmvgmrip.py` line 39. -/
def NO_CHANGE : List String := List.replicate 6 "n"

/-- `mdfmvgmrip.py` lines 66-72 / 87-93: the optional key-on operator bits,
decoded from the write's value only when it addressed register 0x28. -/
def fm_key_on_ops (register value : Int) : Option (Bool × Bool × Bool × Bool) :=
  if register == 0x28 then
    some (value.toNat &&& 0x80 == 0x80, value.toNat &&& 0x40 == 0x40,
          value.toNat &&& 0x20 == 0x20, value.toNat &&& 0x10 == 0x10)
  else none

/-- `mdfmvgmrip.py` lines 50-101: the body of the per-channel loop run after a
state-machine step — on a `"d"` edge, snapshot the channel, dedup against the
catalog and record the usage. -/
def fm_note_channel (register value : Int) (i c : Nat) (ym : YM2612)
    (notes : List String) (insts : List YM2612Instrument) (channel : Nat) :
    Except YM2612Err (List YM2612Instrument) := do
  let note ← match notes.get? channel with
    | some s => Except.ok s
    | none => Except.error YM2612Err.indexError
  if note == "d" then do
    let ch ← ym.chGet channel
    let inst := YM2612Instrument.from_channel ch ym.lfo_freq
    match insts.findIdx? (fun inst2 => YM2612Instrument.compare inst inst2) with
    | none =>
      let record : UseRecord := ⟨c, i, fm_key_on_ops register value⟩
      .ok (insts ++ [{ inst with metadata := [record] }])
    | some idx => do
      let existing ← match insts.get? idx with
        | some x => Except.ok x
        | none => Except.error YM2612Err.indexError
      let record : UseRecord := ⟨c, i, fm_key_on_ops register value⟩
      .ok (insts.set idx { existing with metadata := existing.metadata ++ [record] })
  else .ok insts

/-- The accumulated state of the `dump_fm_instruments` loop: the chip, the
elapsed-sample counter `i`, the command counter `c`, and the catalog. -/
structure ExtractState where
  ym : YM2612
  i : Nat
  c : Nat
  instruments : List YM2612Instrument

/-- `mdfmvgmrip.py` lines 44-104: one iteration of the extractor loop.
Only exact `WriteCommand` instances aimed at the YM2612 are examined —
`Wait` and `DatabankWrite` commands fall through without touching the
elapsed-sample counter.  The missing-from-source `YM2612State` glue passes
the write's fields to the state machine. -/
def dump_fm_step (acc : ExtractState) (cmd : VGMCommand) :
    Except YM2612Err ExtractState :=
  match cmd with
  | .write chip port register value =>
    if chip == Chip.ym2612 then do
      let r ← acc.ym.handle_write_command ⟨port.toNat, register.toNat, value.toNat⟩
      let ym := r.1
      let result := r.2
      let insts ←
        if result.notes != NO_CHANGE then
          (List.range 6).foldlM
            (fun is channel => fm_note_channel register value acc.i acc.c ym result.notes is channel)
            acc.instruments
        else .ok acc.instruments
      .ok { ym := ym, i := acc.i + result.advance, c := acc.c + 1, instruments := insts }
    else .ok acc
  | _ => .ok acc

/-- `mdfmvgmrip.py` lines 36-104: the catalog-building loop of
`dump_fm_instruments`, run over the whole command sequence from a fresh chip
(`YM2612(clock)` ignores its clock argument for state purposes). -/
def dump_fm_instruments (cmds : List VGMCommand) : Except YM2612Err ExtractState :=
  cmds.foldlM dump_fm_step ⟨YM2612.init, 0, 0, []⟩


/-! ## Concrete input files and claim-side round-trip definitions -/

/-- From the claim's words (spec §3): the half-open slice `[start, stop)`
of a data-block buffer designated by a `DataBlockSection`. -/
def data_block_slice (buf : List Nat) (sec : DataBlockSection) : List Nat :=
  (buf.drop sec.start).take (sec.stop - sec.start)

/-- From the claim's words (spec §8): concatenating the recorded section
slices of a buffer, in recorded order. -/
def concat_data_block_slices (buf : List Nat) (secs : List DataBlockSection) :
    List Nat :=
  secs.foldl (fun acc sec => acc ++ data_block_slice buf sec) []

/-- A minimal VGM file, version 0x101 (command stream at 0x40), holding two
type-0x00 data blocks with payloads `[0x61, 0x62]` and `[0x63]`. -/
def c1_file : List Nat :=
  [0x56, 0x67, 0x6D, 0x20, 0, 0, 0, 0, 0x01, 0x01, 0, 0] ++ List.replicate 52 0 ++
  [0x67, 0x66, 0x00, 0x02, 0, 0, 0, 0x61, 0x62,
   0x67, 0x66, 0x00, 0x01, 0, 0, 0, 0x63,
   0x66]

/-- A minimal VGM file, version 0x101, whose command stream is a 0x61 wait
(payload 0x0010) followed by the unknown opcode 0xFF at absolute offset 0x43. -/
def c4_file : List Nat :=
  [0x56, 0x67, 0x6D, 0x20, 0, 0, 0, 0, 0x01, 0x01, 0, 0] ++ List.replicate 52 0 ++
  [0x61, 0x10, 0x00, 0xFF]

/-- A minimal VGM file, version 0x101, with the non-opcode byte 0xFF placed at
absolute offset 0x0C and the terminator opcode at absolute offset 0x40. -/
def c5_file : List Nat :=
  [0x56, 0x67, 0x6D, 0x20, 0, 0, 0, 0, 0x01, 0x01, 0, 0, 0xFF] ++
  List.replicate 51 0 ++ [0x66]

/-! ## Claim theorems (concrete evaluations) -/

/-- Claim C1: concatenating the recorded `DataBlockSection` slices of the
type-0x00 buffer is claimed to reproduce the original chunk bytes.  On
`c1_file` the decoder records the sections `[0,2)` and `[1,2)` — the `start`
of each section is `len(vgm.dblock_data)`, the number of distinct block
TYPES seen so far, not the byte length of that type's buffer — so the slices
of the buffer `[0x61, 0x62, 0x63]` concatenate to `[0x61, 0x62, 0x62]`,
not the original `[0x61, 0x62] ++ [0x63]`. -/
theorem c1_datablock_roundtrip_fails :
    (VGM.from_data c1_file).map (fun v => (v.dblock_sections, dictGet v.dblock_data 0x00)) =
      .ok ([⟨0, 2⟩, ⟨1, 2⟩], some [0x61, 0x62, 0x63]) ∧
    concat_data_block_slices [0x61, 0x62, 0x63] [⟨0, 2⟩, ⟨1, 2⟩] = [0x61, 0x62, 0x62] ∧
    [0x61, 0x62, 0x62] ≠ [0x61, 0x62] ++ [0x63] :=
  ⟨rfl, rfl, by decide⟩

/-- Claim C2: the extractor's elapsed-sample counter is claimed to be
incremented by every `Wait` command's sample count, the waits
`0x62, 0x63, 0x71` contributing `735 + 882 + 2 = 1619`.  In
`dump_fm_instruments` there is no `WaitCommand` branch at all: after the
three waits, the usage record of the first key-on write carries
`at_sample = 0`, and the final counter is 1 (the write's `advance` only). -/
theorem c2_elapsed_samples_ignore_waits :
    (dump_fm_instruments [.wait 735, .wait 882, .wait 2, .write .ym2612 0 0x28 0xF0]).map
        (fun s => (s.i, s.instruments.map YM2612Instrument.metadata)) =
      .ok (1, [[⟨0, 0, some (true, true, true, true)⟩]]) ∧
    (0 : Nat) ≠ 735 + 882 + 2 :=
  ⟨rfl, by decide⟩

/-- Claim C3: a write to register 0x28 with low bits `0b011` is claimed to
succeed as a no-edge no-op.  The lookup's `KeyError` fallback returns the
literal `0b111 = 7` (not the sentinel channel 6 the caller checks for), so
the step indexes `channels[7]` and raises `IndexError`. -/
theorem c3_keyonoff_pattern_011_raises :
    get_channel_number_from_keyonoff_bits 0b011 = 7 ∧
    YM2612.handle_write_command YM2612.init ⟨0, 0x28, 0x03⟩ = .error .indexError :=
  ⟨rfl, rfl⟩

/-- Claim C4: a decode failure on an unknown opcode is claimed to identify the
opcode's absolute byte offset.  In `c4_file` the unknown opcode 0xFF sits at
absolute offset 0x43 (it is the only 0xFF byte), but the error reports 0x41:
the scan does not advance its byte counter over the two payload bytes of the
preceding 0x61 wait command. -/
theorem c4_unknown_opcode_offset_wrong :
    VGM.from_data c4_file = .error (.unknownCommand 0x41 0xFF) ∧
    c4_file.findIdx? (fun b => b == 0xFF) = some 0x43 ∧
    (0x41 : Nat) ≠ 0x43 :=
  ⟨rfl, rfl, by decide⟩

/-- Claim C5, counterexample part: for a version-0x101 file the scan is
claimed to start at absolute offset 0x0C; it actually starts at
`0x34 + 0x0C = 0x40` — decoding `c5_file` succeeds with zero commands even
though offset 0x0C holds the non-opcode byte 0xFF. -/
theorem c5_start_not_0x0C :
    vgm_command_start c5_file 0x101 = .ok 0x40 ∧
    (VGM.from_data c5_file).map (fun v => v.commands) = .ok [] ∧
    c5_file.get? 0x0C = some 0xFF ∧
    (0x40 : Nat) ≠ 0x0C :=
  ⟨rfl, rfl, rfl, by decide⟩

/-- Claim C5 as amended: the command scan starts at `0x34 + (u32 @0x34)` when
the header version is at least 0x150, and at the fixed absolute offset
`0x40 = 0x34 + 0x0C` for every smaller version. -/
theorem c5_command_start_amended (file : List Nat) (version : Nat) :
    (0x00000150 ≤ version →
      vgm_command_start file version = (u32le file 0x34).map (fun off => 0x34 + off)) ∧
    (version < 0x00000150 → vgm_command_start file version = .ok 0x40) := by
  constructor
  · intro h
    simp [vgm_command_start, vgm_data_offset, h]
  · intro h
    simp [vgm_command_start, vgm_data_offset, Nat.not_le.mpr h, Except.map]

/-- Witness for `c5_command_start_amended` at a concrete file and versions on
both sides of 0x150. -/
theorem c5_command_start_amended_witness :
    vgm_command_start [] 0x101 = .ok 0x40 ∧
    vgm_command_start [] 0x150 = (u32le [] 0x34).map (fun off => 0x34 + off) :=
  ⟨(c5_command_start_amended [] 0x101).2 (by decide),
   (c5_command_start_amended [] 0x150).1 (by decide)⟩

/-- Claim C6, counterexample part: for a write to 0xB4 the claim says
`fms = value & 0x03`; with value 0x01 that predicts 1, but the code masks
with 0x02 and stores 0. -/
theorem c6_fms_mask_counterexample :
    (YM2612.handle_write_command YM2612.init ⟨0, 0xB4, 0x01⟩).map
        (fun r => (r.1.channels 0).fms) = .ok 0 ∧
    (0x01 &&& 0x03 : Nat) = 1 ∧
    (0 : Nat) ≠ 1 :=
  ⟨rfl, rfl, by decide⟩

/-- Claim C7: a frequency-MSB write (0xA4-0xA6, no special mode) is claimed to
set `frequency := (old & 0xFF) | ((value & 0x07) << 8)`, leaving the low byte
unchanged.  Setting channel 0's low byte to 0x34 and then writing 0x01 to
0xA4 yields frequency 0x35: the source ORs `value & 0x07` in without the
`<< 8` shift, so the predicted 0x134 is not produced and the low byte is
corrupted from 0x34 to 0x35. -/
theorem c7_freq_msb_missing_shift :
    (do
      let r1 ← YM2612.handle_write_command YM2612.init ⟨0, 0xA0, 0x34⟩
      let r2 ← YM2612.handle_write_command r1.1 ⟨0, 0xA4, 0x01⟩
      Except.ok ((r2.1.channels 0).frequency) : Except YM2612Err Nat) = .ok 0x35 ∧
    (0x35 : Nat) ≠ (0x34 &&& 0xFF) ||| ((0x01 &&& 0x07) <<< 8) ∧
    (0x35 &&& 0xFF : Nat) ≠ 0x34 :=
  ⟨rfl, by decide, by decide⟩

/-! ## Claim theorems (universal properties of the state machine) -/

/-- Claim C8: two instrument snapshots compare equal iff all 11 operator
fields match pairwise across all 4 operators and `algorithm, op1_feedback,
pan, ams, fms, lfo_freq` all match; consequently two snapshots differing in
some operator's `detune` are distinct catalog entries. -/
theorem c8_instrument_equality :
    (∀ a b : YM2612Instrument,
      YM2612Instrument.compare a b = true ↔
        (a.algorithm = b.algorithm ∧ a.lfo_freq = b.lfo_freq ∧
         a.op1_feedback = b.op1_feedback ∧ a.pan = b.pan ∧
         a.ams = b.ams ∧ a.fms = b.fms ∧
         (∀ i : Fin 4,
           (a.operators i).detune = (b.operators i).detune ∧
           (a.operators i).multiplier = (b.operators i).multiplier ∧
           (a.operators i).level = (b.operators i).level ∧
           (a.operators i).key_scaling = (b.operators i).key_scaling ∧
           (a.operators i).amplitude_mod = (b.operators i).amplitude_mod ∧
           (a.operators i).ssg_eg = (b.operators i).ssg_eg ∧
           (a.operators i).attack = (b.operators i).attack ∧
           (a.operators i).delay = (b.operators i).delay ∧
           (a.operators i).sustain = (b.operators i).sustain ∧
           (a.operators i).sust_lvl = (b.operators i).sust_lvl ∧
           (a.operators i).release = (b.operators i).release))) ∧
    (∀ (a b : YM2612Instrument) (i : Fin 4),
      (a.operators i).detune ≠ (b.operators i).detune →
      YM2612Instrument.compare a b = false) := by
  have hiff : ∀ a b : YM2612Instrument,
      YM2612Instrument.compare a b = true ↔
        (a.algorithm = b.algorithm ∧ a.lfo_freq = b.lfo_freq ∧
         a.op1_feedback = b.op1_feedback ∧ a.pan = b.pan ∧
         a.ams = b.ams ∧ a.fms = b.fms ∧
         (∀ i : Fin 4,
           (a.operators i).detune = (b.operators i).detune ∧
           (a.operators i).multiplier = (b.operators i).multiplier ∧
           (a.operators i).level = (b.operators i).level ∧
           (a.operators i).key_scaling = (b.operators i).key_scaling ∧
           (a.operators i).amplitude_mod = (b.operators i).amplitude_mod ∧
           (a.operators i).ssg_eg = (b.operators i).ssg_eg ∧
           (a.operators i).attack = (b.operators i).attack ∧
           (a.operators i).delay = (b.operators i).delay ∧
           (a.operators i).sustain = (b.operators i).sustain ∧
           (a.operators i).sust_lvl = (b.operators i).sust_lvl ∧
           (a.operators i).release = (b.operators i).release)) := by
    intro a b
    simp only [YM2612Instrument.compare, YM2612Operator.compare,
      Bool.and_eq_true, List.all_eq_true, List.mem_finRange, beq_iff_eq]
    constructor
    · rintro ⟨⟨⟨⟨⟨⟨halg, hlfo⟩, hfb⟩, hpan⟩, hams⟩, hfms⟩, hops⟩
      refine ⟨halg, hlfo, hfb, hpan, hams, hfms, fun i => ?_⟩
      have := hops i (by simp)
      tauto
    · rintro ⟨halg, hlfo, hfb, hpan, hams, hfms, hops⟩
      refine ⟨⟨⟨⟨⟨⟨halg, hlfo⟩, hfb⟩, hpan⟩, hams⟩, hfms⟩, fun i _ => ?_⟩
      have := hops i
      tauto
  refine ⟨hiff, fun a b i hne => ?_⟩
  by_contra hcmp
  have : YM2612Instrument.compare a b = true := by
    cases hval : YM2612Instrument.compare a b
    · exact absurd hval hcmp
    · rfl
  exact hne (((hiff a b).mp this).2.2.2.2.2.2 i).1

/-- Two concrete snapshots differing only in operator 0's detune; used as the
witness input for `c8_instrument_equality`. -/
def c8_inst_a : YM2612Instrument :=
  { lfo_freq := -1, operators := fun _ => YM2612Operator.init, algorithm := 0,
    op1_feedback := 0, pan := 0, ams := 0, fms := 0, metadata := [] }

/-- The second witness snapshot: operator 0's detune is 1 instead of 0. -/
def c8_inst_b : YM2612Instrument :=
  { lfo_freq := -1,
    operators := fun i => if i = 0 then { YM2612Operator.init with detune := 1 }
      else YM2612Operator.init,
    algorithm := 0, op1_feedback := 0, pan := 0, ams := 0, fms := 0, metadata := [] }

/-- Witness for `c8_instrument_equality`: at the concrete pair differing only
in operator 0's detune, the comparison is false. -/
theorem c8_instrument_equality_witness :
    YM2612Instrument.compare c8_inst_a c8_inst_b = false :=
  c8_instrument_equality.2 c8_inst_a c8_inst_b 0 (by decide)

/-- `Except.ok` feeding a bind reduces to the continuation. -/
theorem ok_bind {ε α β : Type} (a : α) (f : α → Except ε β) :
    (Except.ok a >>= f : Except ε β) = f a := rfl

set_option maxRecDepth 10000 in
/-- Claim C6 as amended: a write to 0xB4-0xB6 sets the addressed channel's
pan from bits 6-7 and AMS from bits 3-5 as claimed, but FMS is set to
`value & 0x02` (bit 1 only), not `value & 0x03`. -/
theorem c6_stereo_lfo_amended (st : YM2612) (port reg val : Nat)
    (h1 : 0xB4 ≤ reg) (h2 : reg ≤ 0xB6) (hport : port ≤ 1) :
    ∃ st2 ch2,
      YM2612.handle_write_command st ⟨port, reg, val⟩ =
        .ok (st2, ⟨1, List.replicate 6 "n"⟩) ∧
      st2.chGet (reg - 0xB4 + 3 * port) = .ok ch2 ∧
      ch2.pan = (val >>> 6) &&& 0x03 ∧
      ch2.ams = (val >>> 3) &&& 0x07 ∧
      ch2.fms = val &&& 0x02 := by
  interval_cases reg <;> interval_cases port <;>
    exact ⟨_, _, rfl, rfl, rfl, rfl, rfl⟩

/-- Witness for `c6_stereo_lfo_amended` at the initial state, port 0,
register 0xB4, value 0xFF. -/
theorem c6_stereo_lfo_amended_witness :
    ∃ st2 ch2,
      YM2612.handle_write_command YM2612.init ⟨0, 0xB4, 0xFF⟩ =
        .ok (st2, ⟨1, List.replicate 6 "n"⟩) ∧
      st2.chGet (0xB4 - 0xB4 + 3 * 0) = .ok ch2 ∧
      ch2.pan = (0xFF >>> 6) &&& 0x03 ∧
      ch2.ams = (0xFF >>> 3) &&& 0x07 ∧
      ch2.fms = 0xFF &&& 0x02 :=
  c6_stereo_lfo_amended YM2612.init 0 0xB4 0xFF (by decide) (by decide) (by decide)

/-- One key-on/off register write, stated over pre-evaluated channel and
operator-bitmask facts: for a mapped channel `c` whose stored key level is
the opposite of the written one, the step reports exactly one edge at `c`
("d" on key-on, "u" on key-off), all other channels "n", and stores the new
level. -/
theorem handle_keyonoff_step (st : YM2612) (q v c : Nat) (hc : c < 6) (b : Bool)
    (hmap : get_channel_number_from_keyonoff_bits (v &&& 0x07) = c)
    (hb : (((v &&& 0xF0) >>> 4) != 0) = b)
    (hprev : (st.channels ⟨c, hc⟩).key_on = !b) :
    (YM2612.handle_write_command st ⟨q, 0x28, v⟩).map
        (fun r => (r.2, (r.1.channels ⟨c, hc⟩).key_on)) =
      .ok (⟨1, (List.replicate 6 "n").set c (if b then "d" else "u")⟩, b) := by
  have hc6 : ¬ c = 6 := by omega
  cases b <;>
  · simp_all [YM2612.handle_write_command, YM2612.chGet, YM2612.chMod,
      Function.update_apply, Fin.ext_iff, hc, Except.map, ok_bind]
    rw [if_neg (by omega : ¬ (6 : Nat) < c)]
    simp [Function.update_apply, Fin.ext_iff, hb]

/-- Claim C9: for any valid channel pattern `p` mapping to channel `c`, a
0x28 write of `0b1111_0000 | p` from a key-off state reports exactly one
"d" edge at `c` and "n" everywhere else, and a later 0x28 write of
`0b0000_0ccc` from a key-on state reports exactly one "u" edge at `c` and
"n" everywhere else. -/
theorem c9_down_then_up (st sOn : YM2612) (q p c : Nat)
    (hp : p < 8) (hmap : get_channel_number_from_keyonoff_bits p = c) (hc : c < 6)
    (hoff : (st.channels ⟨c, hc⟩).key_on = false)
    (hon : (sOn.channels ⟨c, hc⟩).key_on = true) :
    (YM2612.handle_write_command st ⟨q, 0x28, 0xF0 ||| p⟩).map
        (fun r => (r.2, (r.1.channels ⟨c, hc⟩).key_on)) =
      .ok (⟨1, (List.replicate 6 "n").set c "d"⟩, true) ∧
    (YM2612.handle_write_command sOn ⟨q, 0x28, p⟩).map
        (fun r => (r.2, (r.1.channels ⟨c, hc⟩).key_on)) =
      .ok (⟨1, (List.replicate 6 "n").set c "u"⟩, false) := by
  have hlow : (0xF0 ||| p) &&& 0x07 = p := by interval_cases p <;> decide
  have hself : p &&& 0x07 = p := by interval_cases p <;> decide
  have hbd : ((((0xF0 ||| p) &&& 0xF0) >>> 4) != 0) = true := by
    interval_cases p <;> decide
  have hbu : (((p &&& 0xF0) >>> 4) != 0) = false := by
    interval_cases p <;> decide
  constructor
  · exact handle_keyonoff_step st q (0xF0 ||| p) c hc true
      (by rw [hlow]; exact hmap) hbd hoff
  · exact handle_keyonoff_step sOn q p c hc false
      (by rw [hself]; exact hmap) hbu hon

/-- A chip state whose channel 0 is key-on; witness input for
`c9_down_then_up`. -/
def c9_on_state : YM2612 :=
  { YM2612.init with
    channels := Function.update YM2612.init.channels 0 ({ YM2612Channel.init with key_on := true }) }

/-- Witness for `c9_down_then_up` at pattern 0 (channel 0), from the initial
(key-off) state and a channel-0 key-on state. -/
theorem c9_down_then_up_witness :
    (YM2612.handle_write_command YM2612.init ⟨0, 0x28, 0xF0 ||| 0⟩).map
        (fun r => (r.2, (r.1.channels ⟨0, by omega⟩).key_on)) =
      .ok (⟨1, (List.replicate 6 "n").set 0 "d"⟩, true) ∧
    (YM2612.handle_write_command c9_on_state ⟨0, 0x28, 0⟩).map
        (fun r => (r.2, (r.1.channels ⟨0, by omega⟩).key_on)) =
      .ok (⟨1, (List.replicate 6 "n").set 0 "u"⟩, false) :=
  c9_down_then_up YM2612.init c9_on_state 0 0 0 (by decide) (by decide) (by decide)
    (by decide) (by decide)

/-! ## Claim C10: the keyBits invariant of the extractor catalog -/

/-- `Except.error` feeding a bind stays the error. -/
theorem error_bind {ε α β : Type} (e : ε) (f : α → Except ε β) :
    (Except.error e >>= f : Except ε β) = .error e := rfl

/-- Inversion of a successful `Except` bind. -/
theorem bind_eq_ok {ε α β : Type} {m : Except ε α} {f : α → Except ε β} {v : β}
    (h : m >>= f = .ok v) : ∃ a, m = .ok a ∧ f a = .ok v := by
  cases m with
  | error e => exact absurd h (by simp [Bind.bind, Except.bind])
  | ok a => exact ⟨a, rfl, h⟩

/-- A down (or up) edge can only come from a write to register 0x28: for any
other register the step's `notes` vector is the all-"n" vector. -/
theorem handle_notes_nochange (st : YM2612) (cmd : YMWrite) (st2 : YM2612)
    (res : YM2612State) (hreg : cmd.reg ≠ 0x28)
    (h : YM2612.handle_write_command st cmd = .ok (st2, res)) :
    res.notes = List.replicate 6 "n" := by
  simp only [YM2612.handle_write_command] at h
  rw [if_neg (by simpa using hreg)] at h
  cases hr : st.handle_register_write cmd with
  | error e => rw [hr] at h; exact Except.noConfusion h
  | ok a =>
    rw [hr] at h
    injection h with h3
    injection h3 with h4 h5
    subst h5
    rfl

/-- The C10 invariant: every usage record in the catalog has its
`key_on_ops` field present. -/
def catalog_keybits_ok (insts : List YM2612Instrument) : Bool :=
  insts.all fun inst => inst.metadata.all fun u => u.key_on_ops.isSome

/-- The per-channel catalog update keeps the keyBits invariant whenever the
triggering write addressed register 0x28 (so `fm_key_on_ops` is `some`). -/
theorem fm_note_channel_keeps_keybits (register value : Int) (i c : Nat)
    (ym : YM2612) (notes : List String) (insts insts2 : List YM2612Instrument)
    (channel : Nat) (hreg : register = 0x28)
    (h : fm_note_channel register value i c ym notes insts channel = .ok insts2)
    (hP : catalog_keybits_ok insts = true) : catalog_keybits_ok insts2 = true := by
  have hsome : (fm_key_on_ops register value).isSome = true := by
    simp [fm_key_on_ops, hreg]
  simp only [fm_note_channel, ok_bind, error_bind] at h
  split at h
  case h_2 => exact Except.noConfusion h
  case h_1 s hs =>
    split at h
    case isFalse =>
      injection h with h2
      subst h2
      exact hP
    case isTrue =>
      cases hch : ym.chGet channel with
      | error e =>
        rw [hch, error_bind] at h
        exact Except.noConfusion h
      | ok ch =>
        rw [hch] at h
        simp only [ok_bind] at h
        split at h
        case h_1 =>
          injection h with h2
          subst h2
          simp only [catalog_keybits_ok, List.all_append, Bool.and_eq_true,
            List.all_eq_true] at hP ⊢
          refine ⟨hP, fun x hx => ?_⟩
          simp only [List.mem_singleton] at hx
          subst hx
          intro u hu
          simp only [List.mem_singleton] at hu
          subst hu
          exact hsome
        case h_2 idx hidx =>
          split at h
          case h_2 => exact Except.noConfusion h
          case h_1 x hx =>
            injection h with h2
            subst h2
            simp only [catalog_keybits_ok, List.all_eq_true] at hP ⊢
            intro inst hmem
            rcases List.mem_or_eq_of_mem_set hmem with hold | hnew
            · exact hP inst hold
            · subst hnew
              intro u hu
              rcases List.mem_append.mp hu with hu1 | hu2
              · exact hP x (List.get?_mem hx) u hu1
              · simp only [List.mem_singleton] at hu2
                subst hu2
                exact hsome

example : True := trivial
/-- An invariant preserved by each `Except`-valued fold step is preserved by
the whole fold. -/
theorem foldlM_except_keeps {ε α β : Type} (P : α → Prop) (f : α → β → Except ε α)
    (hf : ∀ a b a2, f a b = .ok a2 → P a → P a2) :
    ∀ (l : List β) (a a2 : α), l.foldlM f a = .ok a2 → P a → P a2 := by
  intro l
  induction l with
  | nil =>
    intro a a2 h hP
    simp only [List.foldlM_nil] at h
    injection h with h2
    subst h2
    exact hP
  | cons x xs ih =>
    intro a a2 h hP
    simp only [List.foldlM_cons] at h
    obtain ⟨a1, hfa, h2⟩ := bind_eq_ok h
    exact ih a1 a2 h2 (hf a x a1 hfa hP)

/-- One extractor iteration keeps the keyBits invariant: records are only
created on a "d" edge, a "d" edge forces the register to be 0x28
(`handle_notes_nochange`), and an 0x28 write always populates the key bits. -/
theorem dump_fm_step_keeps_keybits (acc acc2 : ExtractState) (cmd : VGMCommand)
    (h : dump_fm_step acc cmd = .ok acc2)
    (hP : catalog_keybits_ok acc.instruments = true) :
    catalog_keybits_ok acc2.instruments = true := by
  cases cmd with
  | wait w =>
    simp only [dump_fm_step] at h
    injection h with h2
    subst h2
    exact hP
  | databankWrite w =>
    simp only [dump_fm_step] at h
    injection h with h2
    subst h2
    exact hP
  | databankSeek a =>
    simp only [dump_fm_step] at h
    injection h with h2
    subst h2
    exact hP
  | write chip port register value =>
    simp only [dump_fm_step] at h
    split at h
    case isFalse =>
      injection h with h2
      subst h2
      exact hP
    case isTrue =>
      cases hr : acc.ym.handle_write_command ⟨port.toNat, register.toNat, value.toNat⟩ with
      | error e =>
        rw [hr, error_bind] at h
        exact Except.noConfusion h
      | ok r =>
        rw [hr] at h
        simp only [ok_bind] at h
        split at h
        case isTrue hne =>
          obtain ⟨insts, hfold, h⟩ := bind_eq_ok h
          injection h with h2
          subst h2
          have hreg : register = 0x28 := by
            by_contra hne2
            have hnn : register.toNat ≠ 0x28 := by omega
            have hnc := handle_notes_nochange acc.ym
              ⟨port.toNat, register.toNat, value.toNat⟩ r.1 r.2 hnn (by simpa using hr)
            simp [NO_CHANGE, hnc] at hne
          exact foldlM_except_keeps (fun is => catalog_keybits_ok is = true) _
            (fun a b a2 hstep hPa =>
              fm_note_channel_keeps_keybits register value acc.i acc.c r.1 r.2.notes
                a a2 b hreg hstep hPa)
            (List.range 6) acc.instruments insts hfold hP
        case isFalse =>
          injection h with h2
          subst h2
          exact hP

/-- The C10 invariant read off an extractor run (vacuously true on error). -/
def extract_keybits_ok (r : Except YM2612Err ExtractState) : Bool :=
  match r with
  | .error _ => true
  | .ok s => catalog_keybits_ok s.instruments

/-- Claim C10: in any extractor run, every usage record appended to the
catalog has its keyBits field present (never absent) — a down edge can only
be produced by a write to register 0x28, so the `none` branch of the
key-bits computation is unreachable for appended records. -/
theorem c10_usage_keybits_present (cmds : List VGMCommand) :
    extract_keybits_ok (dump_fm_instruments cmds) = true := by
  cases hres : dump_fm_instruments cmds with
  | error e => simp [extract_keybits_ok]
  | ok s =>
    simp only [extract_keybits_ok]
    simp only [dump_fm_instruments] at hres
    exact foldlM_except_keeps (fun a => catalog_keybits_ok a.instruments = true)
      dump_fm_step (fun a b a2 hstep hPa => dump_fm_step_keeps_keybits a a2 b hstep hPa)
      cmds ⟨YM2612.init, 0, 0, []⟩ s hres (by rfl)
